import Mathlib

/-!
# Slider-sync control panel: command dispatch core

A shallow embedding of `src/src/components/ControlPanel.tsx`, which contains
two variants of the same React component:

* variant A (the current one): axis sliders and manual entry with range
  ceiling 1,000,000, vehicle code/key registration, weight submission and
  error reporting; slider and manual entry dispatch a per-axis
  `POST /<AXIS>/<value>`, weight dispatches `POST /weight` with a JSON body,
  vehicle dispatches `POST /vehicle/<code>/<key>`; the error report makes no
  network call.
* variant B (the legacy one, second half of the file, namespace `Legacy`):
  range ceiling 100, no vehicle or weight form, and a mock combined-axes
  sender that performs no network call.

Numbers entered in the UI are JavaScript doubles obtained by `parseFloat` /
`parseInt` from decimal input strings; we model them exactly as scaled
decimals `m / 10^e` (`Dec`), which agree with the doubles on every
comparison the component performs against its decimal bounds.

Handlers are modelled as pure functions from the component state to the new
state, the list of network requests issued, and the list of toasts shown;
the asynchronous dispatch outcome is supplied by an oracle
`outcome : Request → Bool` (`true` = the HTTP call succeeds, `false` = it
throws/rejects), so one run of a handler describes the whole
validate → dispatch → notify round trip.
-/

namespace SliderSync

deriving instance DecidableEq for Except

/-- A scaled decimal `num / 10^exp`: the exact value denoted by a decimal
literal with `exp` fractional digits. -/
structure Dec where
  num : ℤ
  exp : ℕ
deriving DecidableEq, Repr

/-- The rational value of a scaled decimal. -/
def Dec.toRat (d : Dec) : ℚ := (d.num : ℚ) / (10 : ℚ) ^ d.exp

/-- The comparison `value < k` on a parsed decimal against an integer bound,
computed exactly on the scaled representation (`num / 10^exp < k` iff
`num < k * 10^exp`). -/
def Dec.ltInt (d : Dec) (k : ℤ) : Prop := d.num < k * 10 ^ d.exp

/-- The comparison `value > k` on a parsed decimal against an integer bound. -/
def Dec.gtInt (d : Dec) (k : ℤ) : Prop := d.num > k * 10 ^ d.exp

/-- The comparison `value <= k` on a parsed decimal against an integer bound. -/
def Dec.leInt (d : Dec) (k : ℤ) : Prop := d.num ≤ k * 10 ^ d.exp

instance (d : Dec) (k : ℤ) : Decidable (Dec.ltInt d k) :=
  inferInstanceAs (Decidable (_ < _))

instance (d : Dec) (k : ℤ) : Decidable (Dec.gtInt d k) :=
  inferInstanceAs (Decidable (_ > _))

instance (d : Dec) (k : ℤ) : Decidable (Dec.leInt d k) :=
  inferInstanceAs (Decidable (_ ≤ _))

/-- Numeric value of a list of decimal digit characters. -/
def digitsVal (ds : List Char) : ℕ :=
  ds.foldl (fun n c => 10 * n + (c.toNat - '0'.toNat)) 0

/-- Characters JavaScript number parsing skips at the front of the input. -/
def isJsSpace (c : Char) : Bool :=
  c = ' ' || c = '\t' || c = '\n' || c = '\r'

/-- Model of JavaScript `parseFloat`, restricted to finite decimal literals
(optional sign, digits with an optional decimal point, optional decimal
exponent; `Infinity` and hex forms are outside the model).  `parseFloat`
parses the longest numeric prefix and ignores trailing characters; it
returns NaN (here `none`) when no digit is found. -/
def parseFloatM (s : String) : Option Dec :=
  let cs := s.toList.dropWhile isJsSpace
  let (neg, cs) :=
    match cs with
    | '-' :: r => (true, r)
    | '+' :: r => (false, r)
    | r => (false, r)
  let (ip, cs) := cs.span Char.isDigit
  let (fp, cs) :=
    match cs with
    | '.' :: r => r.span Char.isDigit
    | r => ([], r)
  if ip.isEmpty && fp.isEmpty then none
  else
    let mant : ℤ := (digitsVal (ip ++ fp) : ℤ)
    let mant : ℤ := if neg then -mant else mant
    let (epart, _) :=
      match cs with
      | 'e' :: '-' :: r => let (ds, r) := r.span Char.isDigit
                           ((if ds.isEmpty then none else some (-(digitsVal ds : ℤ))), r)
      | 'e' :: '+' :: r => let (ds, r) := r.span Char.isDigit
                           ((if ds.isEmpty then none else some ((digitsVal ds : ℤ))), r)
      | 'e' :: r => let (ds, r) := r.span Char.isDigit
                    ((if ds.isEmpty then none else some ((digitsVal ds : ℤ))), r)
      | 'E' :: '-' :: r => let (ds, r) := r.span Char.isDigit
                           ((if ds.isEmpty then none else some (-(digitsVal ds : ℤ))), r)
      | 'E' :: '+' :: r => let (ds, r) := r.span Char.isDigit
                           ((if ds.isEmpty then none else some ((digitsVal ds : ℤ))), r)
      | 'E' :: r => let (ds, r) := r.span Char.isDigit
                    ((if ds.isEmpty then none else some ((digitsVal ds : ℤ))), r)
      | r => (none, r)
    let e : ℤ := (epart.getD 0) - (fp.length : ℤ)
    if 0 ≤ e then some ⟨mant * 10 ^ e.toNat, 0⟩
    else some ⟨mant, (-e).toNat⟩

/-- Model of JavaScript `parseInt` with the default radix on decimal input
(optional sign, then the longest prefix of decimal digits; hex prefixes are
outside the model).  Returns `none` (NaN) when no digit is found. -/
def parseIntM (s : String) : Option ℤ :=
  let cs := s.toList.dropWhile isJsSpace
  let (neg, cs) :=
    match cs with
    | '-' :: r => (true, r)
    | '+' :: r => (false, r)
    | r => (false, r)
  let (ds, _) := cs.span Char.isDigit
  if ds.isEmpty then none
  else
    let v : ℤ := (digitsVal ds : ℤ)
    some (if neg then -v else v)

/-- Strip trailing zero fractional digits: the canonical scaled decimal with
the same value, mirroring that JavaScript prints a double in its shortest
decimal form. -/
def trimAux (n : ℤ) : ℕ → Dec
  | 0 => ⟨n, 0⟩
  | e + 1 => if n % 10 = 0 then trimAux (n / 10) e else ⟨n, e + 1⟩

/-- See `trimAux`. -/
def Dec.trim (d : Dec) : Dec := trimAux d.num d.exp

/-- Left-pad a digit list with `'0'` up to length `n`. -/
def padZeros (l : List Char) (n : ℕ) : List Char :=
  List.replicate (n - l.length) '0' ++ l

/-- Model of JavaScript number-to-string conversion (template-literal
interpolation `${value}`) on the decimals the component handles: the
shortest decimal rendering, with no forced fractional precision. -/
def Dec.render (d : Dec) : String :=
  let t := Dec.trim d
  let digits := padZeros (Nat.repr t.num.natAbs).toList (t.exp + 1)
  let body :=
    if t.exp = 0 then digits.asString
    else (digits.take (digits.length - t.exp)).asString ++ "." ++
         (digits.drop (digits.length - t.exp)).asString
  if t.num < 0 then "-" ++ body else body

/-- Number of fractional digits in the rendered decimal literal. -/
def Dec.fracDigits (d : Dec) : ℕ := (Dec.trim d).exp

/-- Model of JavaScript `toUpperCase()` on the axis option strings. -/
def jsToUpper (s : String) : String := (s.toList.map Char.toUpper).asString

/-- The JSON body of a request: empty, the combined position triple, or the
weight object. -/
inductive ReqBody where
  | empty : ReqBody
  | positionBody (x y z : Dec) : ReqBody
  | weightBody (w : Dec) : ReqBody
deriving DecidableEq, Repr

/-- One HTTP request as built by the component (every call is a `POST`
against the configured base URL). -/
structure Request where
  method : String
  path : String
  body : ReqBody
deriving DecidableEq, Repr

/-- One toast shown through the `useToast` notifier; `destructive` is the
error variant. -/
structure Toast where
  title : String
  description : String
  destructive : Bool
deriving DecidableEq, Repr

/-- The three axes (`keyof AxisValues`). -/
inductive Axis where
  | x | y | z
deriving DecidableEq, Repr

/-- The option value string of an axis, as stored by the axis `Select`. -/
def Axis.str : Axis → String
  | .x => "x"
  | .y => "y"
  | .z => "z"

/-- The `AxisValues` record. -/
structure AxisValues where
  x : Dec
  y : Dec
  z : Dec
deriving DecidableEq, Repr

/-- Functional update of one axis. -/
def AxisValues.set (a : AxisValues) : Axis → Dec → AxisValues
  | .x, v => { a with x := v }
  | .y, v => { a with y := v }
  | .z, v => { a with z := v }

/-- Spread-update `{ ...axisValues, [key]: v }` with a computed string key:
a key other than `"x"`, `"y"`, `"z"` adds an unrelated property and leaves
the three axis fields unchanged. -/
def AxisValues.setStr (a : AxisValues) (k : String) (v : Dec) : AxisValues :=
  if k = "x" then { a with x := v }
  else if k = "y" then { a with y := v }
  else if k = "z" then { a with z := v }
  else a

/-- The `value` strings of `ERROR_TYPES`, the fixed error enumeration. -/
def errorTypeValues : List String :=
  ["calibration", "positioning", "sensor", "communication", "mechanical"]

/-- React state of the current component variant. -/
structure PanelState where
  axisValues : AxisValues
  selectedError : String
  selectedAxis : String
  vehicleCode : String
  vehicleKey : String
  manualValue : String
  weight : String
deriving DecidableEq, Repr

/-- Initial state: `{ x: 0, y: 0, z: 0 }` and empty form fields. -/
def initialState : PanelState :=
  { axisValues := ⟨⟨0, 0⟩, ⟨0, 0⟩, ⟨0, 0⟩⟩
    selectedError := ""
    selectedAxis := ""
    vehicleCode := ""
    vehicleKey := ""
    manualValue := ""
    weight := "" }

/-- The rejection reasons of the validation layer, one per distinct
rejection toast in the handlers. -/
inductive RejectReason where
  | missingSelectionOrValue
  | outOfRange
  | missingCode
  | missingKey
  | invalidCode
  | missingWeight
  | invalidWeight
  | noErrorSelected
deriving DecidableEq, Repr

/-- Validation performed by `handleManualSubmit` (both variants, with the
range ceiling `maxN` as the configured constant): the combined
`!selectedAxis || !manualValue` emptiness check, then
`parseFloat`, then `isNaN(value) || value < 0 || value > MAX` — the two
numeric comparisons evaluated exactly on the scaled decimal. -/
def manualValidate (maxN : ℤ) (selectedAxis manualValue : String) :
    Except RejectReason Dec :=
  if selectedAxis = "" || manualValue = "" then
    .error .missingSelectionOrValue
  else
    match parseFloatM manualValue with
    | none => .error .outOfRange
    | some v =>
      if v.ltInt 0 ∨ v.gtInt maxN then .error .outOfRange
      else .ok v

/-- Validation performed by `handleVehicleCodeFetch`: both fields non-empty,
then `parseInt`, then `isNaN(value) || value < 0 || value > 1000000`. -/
def vehicleValidate (vehicleCode vehicleKey : String) :
    Except RejectReason ℤ :=
  if vehicleCode = "" then .error .missingCode
  else if vehicleKey = "" then .error .missingKey
  else
    match parseIntM vehicleCode with
    | none => .error .invalidCode
    | some v =>
      if v < 0 ∨ v > 1000000 then .error .invalidCode
      else .ok v

/-- Validation performed by `handleWeightSubmit`: non-empty, then
`parseFloat`, then `isNaN(weightValue) || weightValue <= 0`. -/
def weightValidate (weight : String) : Except RejectReason Dec :=
  if weight = "" then .error .missingWeight
  else
    match parseFloatM weight with
    | none => .error .invalidWeight
    | some v =>
      if v.leInt 0 then .error .invalidWeight
      else .ok v

/-- Validation performed by `handleErrorSubmit`: only `!selectedError`. -/
def errorValidate (selectedError : String) : Except RejectReason String :=
  if selectedError = "" then .error .noErrorSelected
  else .ok selectedError

/-- The rejection toast each reason produces (variant A texts). -/
def rejectToast : RejectReason → Toast
  | .missingSelectionOrValue =>
      ⟨"Invalid input", "Please select an axis and enter a value", true⟩
  | .outOfRange =>
      ⟨"Invalid value", "Please enter a value between 0 and 1000000", true⟩
  | .missingCode => ⟨"Invalid input", "Please enter vehicle Code", true⟩
  | .missingKey => ⟨"Invalid input", "Please enter vehicle Key", true⟩
  | .invalidCode => ⟨"Invalid value", "Please enter a valid vehicle code", true⟩
  | .missingWeight => ⟨"Invalid input", "Please enter a weight value", true⟩
  | .invalidWeight => ⟨"Invalid weight", "Please enter a valid weight value", true⟩
  | .noErrorSelected => ⟨"No error selected", "Please select an error type", true⟩

/-- `sendIndividualAxisData`: builds `POST /<AXIS_UPPERCASE>/<value>` with no
body, and shows the success or transport-failure toast according to the
dispatch outcome. -/
def sendIndividualAxisData (axis : String) (value : Dec)
    (outcome : Request → Bool) : Request × Toast :=
  let req : Request :=
    ⟨"POST", "/" ++ jsToUpper axis ++ "/" ++ value.render, .empty⟩
  (req,
    if outcome req then
      ⟨"Data sent successfully", jsToUpper axis ++ ": " ++ value.render, false⟩
    else
      ⟨"Error sending data", "Failed to send " ++ axis ++ " axis value", true⟩)

/-- `sendWeightData`: builds `POST /weight` with body `{ weight }`. -/
def sendWeightData (weightValue : Dec) (outcome : Request → Bool) :
    Request × Toast :=
  let req : Request := ⟨"POST", "/weight", .weightBody weightValue⟩
  (req,
    if outcome req then
      ⟨"Weight data sent", "Weight: " ++ weightValue.render, false⟩
    else
      ⟨"Error sending weight", "Failed to send weight data", true⟩)

/-- `sendVehicleCode`: builds `POST /vehicle/<code>/<key>` by concatenating
the raw form strings (not the parsed integer) into the path, with no body. -/
def sendVehicleCode (vehicleCode vehicleKey : String)
    (outcome : Request → Bool) : Request × Toast :=
  let req : Request :=
    ⟨"POST", "/vehicle/" ++ vehicleCode ++ "/" ++ vehicleKey, .empty⟩
  (req,
    if outcome req then
      ⟨"Data sent successfully", "Vehicle connected: " ++ vehicleCode, false⟩
    else
      ⟨"Error sending data", "Failed to connect vehicle", true⟩)

/-- `sendErrorData`: performs no network call; it only logs and shows the
"Error reported" toast with the error type. -/
def sendErrorData (errorType : String) : List Request × Toast :=
  ([], ⟨"Error reported", "Error type: " ++ errorType, false⟩)

/-- `handleSliderChange` (variant A): optimistically writes the new axis
value into the view state, then dispatches the per-axis request; the slider
widget passes the already-ranged value, so there is no validation. -/
def handleSliderChange (s : PanelState) (axis : Axis) (value : Dec)
    (outcome : Request → Bool) : PanelState × List Request × List Toast :=
  let newValues := s.axisValues.set axis value
  let (req, t) := sendIndividualAxisData axis.str value outcome
  ({ s with axisValues := newValues }, [req], [t])

/-- `handleManualSubmit` (variant A, ceiling 1,000,000): on rejection shows
the rejection toast and returns; on acceptance optimistically updates the
axis view state, dispatches the per-axis request, and clears the value and
axis-selection fields. -/
def handleManualSubmit (s : PanelState) (outcome : Request → Bool) :
    PanelState × List Request × List Toast :=
  match manualValidate 1000000 s.selectedAxis s.manualValue with
  | .error r => (s, [], [rejectToast r])
  | .ok value =>
    let newValues := s.axisValues.setStr s.selectedAxis value
    let (req, t) := sendIndividualAxisData s.selectedAxis value outcome
    ({ s with axisValues := newValues, manualValue := "", selectedAxis := "" },
      [req], [t])

/-- `handleVehicleCodeFetch`: on rejection shows the rejection toast and
returns; on acceptance re-writes the same code/key state (a no-op) and
dispatches the vehicle request built from the raw strings. -/
def handleVehicleCodeFetch (s : PanelState) (outcome : Request → Bool) :
    PanelState × List Request × List Toast :=
  match vehicleValidate s.vehicleCode s.vehicleKey with
  | .error r => (s, [], [rejectToast r])
  | .ok _ =>
    let (req, t) := sendVehicleCode s.vehicleCode s.vehicleKey outcome
    (s, [req], [t])

/-- `handleWeightSubmit`: on rejection shows the rejection toast and
returns; on acceptance dispatches the weight request and clears the weight
field without awaiting the outcome. -/
def handleWeightSubmit (s : PanelState) (outcome : Request → Bool) :
    PanelState × List Request × List Toast :=
  match weightValidate s.weight with
  | .error r => (s, [], [rejectToast r])
  | .ok weightValue =>
    let (req, t) := sendWeightData weightValue outcome
    ({ s with weight := "" }, [req], [t])

/-- `handleErrorSubmit`: rejects an empty selection; otherwise invokes
`sendErrorData` (local notification only, no network) and clears the
selection. -/
def handleErrorSubmit (s : PanelState) :
    PanelState × List Request × List Toast :=
  match errorValidate s.selectedError with
  | .error r => (s, [], [rejectToast r])
  | .ok e =>
    let (reqs, t) := sendErrorData e
    ({ s with selectedError := "" }, reqs, [t])

/-! ## Variant B: the legacy component (second half of the file)

Range ceiling 100, no vehicle or weight form, and a mock `sendAxisData`
that sends the whole axis triple to no network endpoint (console log and
toast only). -/

namespace Legacy

/-- React state of the legacy variant. -/
structure State where
  axisValues : AxisValues
  selectedError : String
  selectedAxis : String
  manualValue : String
deriving DecidableEq, Repr

/-- Initial state: `{ x: 50, y: 50, z: 50 }` and empty form fields. -/
def initialState : State :=
  { axisValues := ⟨⟨50, 0⟩, ⟨50, 0⟩, ⟨50, 0⟩⟩
    selectedError := ""
    selectedAxis := ""
    manualValue := "" }

/-- The legacy out-of-range toast (ceiling 100 in the message). -/
def toastInvalidValue100 : Toast :=
  ⟨"Invalid value", "Please enter a value between 0 and 100", true⟩

/-- The legacy rejection toast for each reason the legacy handlers raise. -/
def rejectToastL : RejectReason → Toast
  | .outOfRange => toastInvalidValue100
  | r => rejectToast r

/-- Legacy `sendAxisData`: a mock sender — it performs no network call and
only shows the combined-triple toast. -/
def sendAxisData (data : AxisValues) (source : String) :
    List Request × Toast :=
  ([], ⟨"Data sent successfully",
    "X: " ++ data.x.render ++ ", Y: " ++ data.y.render ++
      ", Z: " ++ data.z.render ++ " (via " ++ source ++ ")", false⟩)

/-- Legacy `handleSliderChange`: optimistic view-state update, then the mock
combined sender. -/
def handleSliderChange (s : State) (axis : Axis) (value : Dec) :
    State × List Request × List Toast :=
  let newValues := s.axisValues.set axis value
  let (reqs, t) := sendAxisData newValues "slider"
  ({ s with axisValues := newValues }, reqs, [t])

/-- Legacy `handleManualSubmit` (ceiling 100): same validation shape as the
current variant, then the mock combined sender, then the field clears. -/
def handleManualSubmit (s : State) : State × List Request × List Toast :=
  match manualValidate 100 s.selectedAxis s.manualValue with
  | .error r => (s, [], [rejectToastL r])
  | .ok value =>
    let newValues := s.axisValues.setStr s.selectedAxis value
    let (reqs, t) := sendAxisData newValues "manual"
    ({ s with axisValues := newValues, manualValue := "", selectedAxis := "" },
      reqs, [t])

/-- Legacy `handleErrorSubmit`: identical to the current variant. -/
def handleErrorSubmit (s : State) : State × List Request × List Toast :=
  match errorValidate s.selectedError with
  | .error r => (s, [], [rejectToastL r])
  | .ok e =>
    let (reqs, t) := sendErrorData e
    ({ s with selectedError := "" }, reqs, [t])

end Legacy

/-- Whether a string is exactly a decimal integer numeral (optional sign,
then one or more digits, nothing else): the claim-side notion of the raw
input "being an integer". -/
def isIntegerString (s : String) : Bool :=
  match s.toList with
  | [] => false
  | '-' :: ds => !ds.isEmpty && ds.all Char.isDigit
  | '+' :: ds => !ds.isEmpty && ds.all Char.isDigit
  | ds => ds.all Char.isDigit

end SliderSync

namespace SliderSync

/-! ## Bridge lemmas: exact integer comparisons versus rational values -/

/-- `value < k` on the scaled decimal agrees with the rational comparison. -/
theorem Dec.ltInt_iff (d : Dec) (k : ℤ) : d.ltInt k ↔ d.toRat < (k : ℚ) := by
  unfold Dec.ltInt Dec.toRat
  rw [div_lt_iff₀ (by positivity)]
  constructor <;> intro h <;> exact_mod_cast h

/-- `value > k` on the scaled decimal agrees with the rational comparison. -/
theorem Dec.gtInt_iff (d : Dec) (k : ℤ) : d.gtInt k ↔ (k : ℚ) < d.toRat := by
  unfold Dec.gtInt Dec.toRat
  rw [lt_div_iff₀ (by positivity)]
  constructor <;> intro h <;> exact_mod_cast h

/-- `value <= k` on the scaled decimal agrees with the rational comparison. -/
theorem Dec.leInt_iff (d : Dec) (k : ℤ) : d.leInt k ↔ d.toRat ≤ (k : ℚ) := by
  unfold Dec.leInt Dec.toRat
  rw [div_le_iff₀ (by positivity)]
  constructor <;> intro h <;> exact_mod_cast h

/-- `value < 0` agrees with negativity of the rational value. -/
theorem Dec.ltInt_zero (d : Dec) : d.ltInt 0 ↔ d.toRat < 0 := by
  rw [Dec.ltInt_iff]; norm_num

/-- `value <= 0` agrees with nonpositivity of the rational value. -/
theorem Dec.leInt_zero (d : Dec) : d.leInt 0 ↔ d.toRat ≤ 0 := by
  rw [Dec.leInt_iff]; norm_num

/-- Trimming trailing zero fractional digits preserves the value. -/
theorem trimAux_toRat (e : ℕ) (n : ℤ) :
    (trimAux n e).toRat = Dec.toRat ⟨n, e⟩ := by
  induction e generalizing n with
  | zero => rfl
  | succ e ih =>
    rw [trimAux]
    by_cases h : n % 10 = 0
    · rw [if_pos h, ih]
      obtain ⟨m, hm⟩ : (10 : ℤ) ∣ n := Int.dvd_of_emod_eq_zero h
      subst hm
      rw [Int.mul_ediv_cancel_left _ (by norm_num)]
      unfold Dec.toRat
      push_cast
      rw [pow_succ]
      field_simp
      ring
    · rw [if_neg h]

/-- A trimmed decimal either is an integer or has a last fractional digit
that is non-zero. -/
theorem trimAux_num_not_dvd (e : ℕ) (n : ℤ) :
    (trimAux n e).exp = 0 ∨ ¬ (10 : ℤ) ∣ (trimAux n e).num := by
  induction e generalizing n with
  | zero => exact Or.inl rfl
  | succ e ih =>
    rw [trimAux]
    by_cases h : n % 10 = 0
    · rw [if_pos h]; exact ih _
    · rw [if_neg h]
      exact Or.inr fun hd => h (Int.emod_eq_zero_of_dvd hd)

/-- A decimal whose value is an integer multiple of one tenth renders with
at most one fractional digit. -/
theorem Dec.fracDigits_le_one_of_tenth (d : Dec) (k : ℤ)
    (h : d.toRat = (k : ℚ) / 10) : d.fracDigits ≤ 1 := by
  unfold Dec.fracDigits
  by_contra hgt
  push_neg at hgt
  have htr : (Dec.trim d).toRat = d.toRat := trimAux_toRat d.exp d.num
  have hnd : ¬ (10 : ℤ) ∣ (Dec.trim d).num := by
    rcases trimAux_num_not_dvd d.exp d.num with h0 | hnd
    · exact absurd (show (1:ℕ) < (Dec.trim d).exp from hgt) (by
        rw [show Dec.trim d = trimAux d.num d.exp from rfl] at *
        omega)
    · exact hnd
  have heq : ((Dec.trim d).num : ℚ) / 10 ^ (Dec.trim d).exp = (k : ℚ) / 10 := by
    rw [show ((Dec.trim d).num : ℚ) / 10 ^ (Dec.trim d).exp =
        (Dec.trim d).toRat from rfl, htr, h]
  rw [div_eq_div_iff (by positivity) (by norm_num)] at heq
  have h3 : (Dec.trim d).num * 10 = k * 10 ^ (Dec.trim d).exp := by
    exact_mod_cast heq
  obtain ⟨m, hm⟩ : ∃ m, (Dec.trim d).exp = m + 2 := ⟨(Dec.trim d).exp - 2, by omega⟩
  rw [hm, pow_succ] at h3
  have h4 : (Dec.trim d).num = k * 10 ^ (m + 1) :=
    mul_right_cancel₀ (by norm_num : (10:ℤ) ≠ 0) (by linarith [h3])
  exact hnd ⟨k * 10 ^ m, by rw [h4, pow_succ]; ring⟩

/-! ## Claims -/

/-- C1: for every axis manual-entry raw input with an axis selected and a
non-empty value field, an input that parses as a number `v` is accepted
exactly when `0 ≤ v ≤ MAX` (the configured ceiling), and is otherwise
rejected with the out-of-range reason; a not-a-number input is also
rejected. -/
theorem manual_entry_accepted_iff_in_range (maxN : ℤ) (sa mv : String)
    (hsa : sa ≠ "") (hmv : mv ≠ "") :
    (parseFloatM mv = none →
      manualValidate maxN sa mv = .error .outOfRange) ∧
    ∀ v : Dec, parseFloatM mv = some v →
      ((manualValidate maxN sa mv = .ok v) ↔
        (0 ≤ v.toRat ∧ v.toRat ≤ (maxN : ℚ))) ∧
      (¬(0 ≤ v.toRat ∧ v.toRat ≤ (maxN : ℚ)) →
        manualValidate maxN sa mv = .error .outOfRange) := by
  constructor
  · intro h
    simp [manualValidate, hsa, hmv, h]
  · intro v hv
    have hval : manualValidate maxN sa mv =
        if v.ltInt 0 ∨ v.gtInt maxN then .error .outOfRange else .ok v := by
      simp [manualValidate, hsa, hmv, hv]
    rw [hval]
    by_cases hc : v.ltInt 0 ∨ v.gtInt maxN
    · rw [if_pos hc]
      have hrange : ¬(0 ≤ v.toRat ∧ v.toRat ≤ (maxN : ℚ)) := by
        rcases hc with h | h
        · rw [Dec.ltInt_zero] at h
          intro hr; linarith [hr.1]
        · rw [Dec.gtInt_iff] at h
          intro hr; linarith [hr.2]
      exact ⟨⟨fun h => absurd h (by simp), fun h => absurd h hrange⟩,
        fun _ => rfl⟩
    · rw [if_neg hc]
      push_neg at hc
      obtain ⟨h1, h2⟩ := hc
      rw [Dec.ltInt_zero] at h1
      rw [Dec.gtInt_iff] at h2
      push_neg at h1 h2
      exact ⟨⟨fun _ => ⟨h1, h2⟩, fun _ => rfl⟩, fun h => absurd ⟨h1, h2⟩ h⟩

/-- Witness for C1: at ceiling 1,000,000 with axis `"x"`, the raw value
`"50"` parses to 50 and is accepted. -/
theorem manual_entry_accepted_iff_in_range_witness :
    manualValidate 1000000 "x" "50" = Except.ok ⟨50, 0⟩ :=
  (((manual_entry_accepted_iff_in_range 1000000 "x" "50" (by decide)
      (by decide)).2 ⟨50, 0⟩ (by decide)).1).mpr
    ⟨by norm_num [Dec.toRat], by norm_num [Dec.toRat]⟩

/-- C4: a weight raw input is accepted exactly when it parses as a number
`w` with `w > 0`; a weight parsing to zero or negative is rejected with the
invalid-weight reason, a non-numeric non-empty input is rejected with the
invalid-weight reason, and an empty input is rejected with the
missing-weight reason. -/
theorem weight_accepted_iff_positive (w : String) :
    (w = "" → weightValidate w = .error .missingWeight) ∧
    (w ≠ "" →
      (parseFloatM w = none → weightValidate w = .error .invalidWeight) ∧
      ∀ v : Dec, parseFloatM w = some v →
        ((weightValidate w = .ok v) ↔ 0 < v.toRat) ∧
        (v.toRat ≤ 0 → weightValidate w = .error .invalidWeight)) := by
  constructor
  · intro h
    simp [weightValidate, h]
  · intro hw
    constructor
    · intro h
      simp [weightValidate, hw, h]
    · intro v hv
      have hval : weightValidate w =
          if v.leInt 0 then .error .invalidWeight else .ok v := by
        simp [weightValidate, hw, hv]
      rw [hval]
      by_cases hc : v.leInt 0
      · rw [if_pos hc]
        rw [Dec.leInt_zero] at hc
        exact ⟨⟨fun h => absurd h (by simp), fun h => absurd hc (by linarith)⟩,
          fun _ => rfl⟩
      · rw [if_neg hc]
        rw [Dec.leInt_zero] at hc
        push_neg at hc
        exact ⟨⟨fun _ => hc, fun _ => rfl⟩, fun h => absurd h (by linarith)⟩

/-- Witness for C4: the raw weight `"5"` parses to 5 and is accepted, and
the empty weight is rejected as missing. -/
theorem weight_accepted_iff_positive_witness :
    weightValidate "5" = Except.ok ⟨5, 0⟩ ∧
    weightValidate "" = Except.error RejectReason.missingWeight :=
  ⟨(((weight_accepted_iff_positive "5").2 (by decide)).2 ⟨5, 0⟩
      (by decide)).1.mpr (by norm_num [Dec.toRat]),
    (weight_accepted_iff_positive "").1 rfl⟩

/-- C8 counterexample: a submission with no axis selected and a submission
with an empty value field are rejected with the same single toast
("Invalid input" / "Please select an axis and enter a value"), not with two
distinct field-specific reasons. -/
theorem manual_missing_reasons_single_message :
    (handleManualSubmit { initialState with manualValue := "5" }
        (fun _ => true)).2.2 =
      [⟨"Invalid input", "Please select an axis and enter a value", true⟩] ∧
    (handleManualSubmit { initialState with selectedAxis := "x" }
        (fun _ => true)).2.2 =
      [⟨"Invalid input", "Please select an axis and enter a value", true⟩] := by
  decide

/-- C8 amended: the axis and value fields are checked together; a
submission with no axis selected or with an empty value field is rejected
with the one combined reason, shown as the toast "Invalid input" /
"Please select an axis and enter a value". -/
theorem manual_missing_rejection_combined (s : PanelState)
    (o : Request → Bool) (h : s.selectedAxis = "" ∨ s.manualValue = "") :
    handleManualSubmit s o =
      (s, [], [rejectToast .missingSelectionOrValue]) := by
  rcases h with h | h <;> simp [handleManualSubmit, manualValidate, h]

/-- Witness for the amended C8 at a state with an axis but no value. -/
theorem manual_missing_rejection_combined_witness :
    handleManualSubmit { initialState with selectedAxis := "x" }
        (fun _ => true) =
      ({ initialState with selectedAxis := "x" }, [],
        [rejectToast .missingSelectionOrValue]) :=
  manual_missing_rejection_combined _ _ (Or.inr rfl)

/-- C3 counterexample: the raw vehicle code `"12.9"` is not an integer
numeral, yet it is accepted (`parseInt` keeps the leading digit prefix 12)
and the request is dispatched with the raw string embedded in the path. -/
theorem vehicle_accepts_noninteger_input :
    isIntegerString "12.9" = false ∧
    vehicleValidate "12.9" "key" = Except.ok 12 ∧
    (handleVehicleCodeFetch
        { initialState with vehicleCode := "12.9", vehicleKey := "key" }
        (fun _ => true)).2.1 =
      [⟨"POST", "/vehicle/12.9/key", .empty⟩] := by
  decide

/-- C3 amended: with both fields non-empty, a vehicle code raw input is
accepted exactly when `parseInt` finds a leading decimal integer prefix
whose value `v` satisfies `0 ≤ v ≤ 1,000,000`; an input with no digit
prefix, or whose parsed value is out of range, is rejected with the
invalid-code reason. -/
theorem vehicle_code_accepted_iff_parsed_in_range (code key : String)
    (hc : code ≠ "") (hk : key ≠ "") :
    (parseIntM code = none →
      vehicleValidate code key = .error .invalidCode) ∧
    ∀ v : ℤ, parseIntM code = some v →
      ((vehicleValidate code key = .ok v) ↔ (0 ≤ v ∧ v ≤ 1000000)) ∧
      (¬(0 ≤ v ∧ v ≤ 1000000) →
        vehicleValidate code key = .error .invalidCode) := by
  constructor
  · intro h
    simp [vehicleValidate, hc, hk, h]
  · intro v hv
    have hval : vehicleValidate code key =
        if v < 0 ∨ v > 1000000 then .error .invalidCode else .ok v := by
      simp [vehicleValidate, hc, hk, hv]
    rw [hval]
    by_cases hcase : v < 0 ∨ v > 1000000
    · rw [if_pos hcase]
      have hrange : ¬(0 ≤ v ∧ v ≤ 1000000) := by omega
      exact ⟨⟨fun h => absurd h (by simp), fun h => absurd h hrange⟩,
        fun _ => rfl⟩
    · rw [if_neg hcase]
      push_neg at hcase
      exact ⟨⟨fun _ => ⟨hcase.1, hcase.2⟩, fun _ => rfl⟩,
        fun h => absurd ⟨hcase.1, hcase.2⟩ h⟩

/-- Witness for the amended C3: code `"123"` with key `"k"` parses to 123
and is accepted. -/
theorem vehicle_code_accepted_iff_parsed_in_range_witness :
    vehicleValidate "123" "k" = Except.ok 123 :=
  (((vehicle_code_accepted_iff_parsed_in_range "123" "k" (by decide)
      (by decide)).2 123 (by decide)).1).mpr (by omega)

/-- C5: whenever the validation step of any of the four forms rejects, the
handler issues no network request (so no payload is built), leaves the
state untouched, and surfaces exactly one destructive toast; every
rejection toast is destructive. -/
theorem rejected_input_no_dispatch (s : PanelState) (o : Request → Bool) :
    (∀ r, manualValidate 1000000 s.selectedAxis s.manualValue = .error r →
      handleManualSubmit s o = (s, [], [rejectToast r])) ∧
    (∀ r, vehicleValidate s.vehicleCode s.vehicleKey = .error r →
      handleVehicleCodeFetch s o = (s, [], [rejectToast r])) ∧
    (∀ r, weightValidate s.weight = .error r →
      handleWeightSubmit s o = (s, [], [rejectToast r])) ∧
    (∀ r, errorValidate s.selectedError = .error r →
      handleErrorSubmit s = (s, [], [rejectToast r])) ∧
    (∀ r, (rejectToast r).destructive = true) := by
  refine ⟨fun r hr => ?_, fun r hr => ?_, fun r hr => ?_, fun r hr => ?_,
    fun r => ?_⟩
  · simp [handleManualSubmit, hr]
  · simp [handleVehicleCodeFetch, hr]
  · simp [handleWeightSubmit, hr]
  · simp [handleErrorSubmit, hr]
  · cases r <;> rfl

/-- Witness for C5 at the initial state, whose four forms are all empty and
all rejected. -/
theorem rejected_input_no_dispatch_witness :
    handleManualSubmit initialState (fun _ => true) =
      (initialState, [], [rejectToast .missingSelectionOrValue]) ∧
    handleVehicleCodeFetch initialState (fun _ => true) =
      (initialState, [], [rejectToast .missingCode]) ∧
    handleWeightSubmit initialState (fun _ => true) =
      (initialState, [], [rejectToast .missingWeight]) ∧
    handleErrorSubmit initialState =
      (initialState, [], [rejectToast .noErrorSelected]) :=
  ⟨(rejected_input_no_dispatch initialState (fun _ => true)).1 _ (by decide),
    (rejected_input_no_dispatch initialState (fun _ => true)).2.1 _ (by decide),
    (rejected_input_no_dispatch initialState (fun _ => true)).2.2.1 _ (by decide),
    (rejected_input_no_dispatch initialState (fun _ => true)).2.2.2.1 _ (by decide)⟩

/-- C7: for a selection that is possible through the error `Select` (empty
or one of the five enumeration values), the error submission is accepted
exactly when the selection is one of the five values; on acceptance the
notifier is invoked with the selected type, no network request is issued,
and the selection is cleared; otherwise the no-error-selected rejection is
raised. -/
theorem error_submit_accepted_iff_enum (s : PanelState)
    (h : s.selectedError = "" ∨ s.selectedError ∈ errorTypeValues) :
    ((handleErrorSubmit s =
        ({ s with selectedError := "" }, [],
          [⟨"Error reported", "Error type: " ++ s.selectedError, false⟩])) ↔
      s.selectedError ∈ errorTypeValues) ∧
    (s.selectedError ∉ errorTypeValues →
      handleErrorSubmit s = (s, [], [rejectToast .noErrorSelected])) := by
  rcases h with h | h
  · have hne : s.selectedError ∉ errorTypeValues := by
      rw [h]; decide
    have hrej : handleErrorSubmit s = (s, [], [rejectToast .noErrorSelected]) := by
      simp [handleErrorSubmit, errorValidate, h]
    refine ⟨⟨fun heq => ?_, fun hmem => absurd hmem hne⟩, fun _ => hrej⟩
    rw [hrej] at heq
    have := congrArg (fun p => (p.2.2 : List Toast)) heq
    simp [rejectToast] at this
  · have hne : s.selectedError ≠ "" := by
      intro he; rw [he] at h; exact absurd h (by decide)
    have hacc : handleErrorSubmit s =
        ({ s with selectedError := "" }, [],
          [⟨"Error reported", "Error type: " ++ s.selectedError, false⟩]) := by
      simp [handleErrorSubmit, errorValidate, sendErrorData, hne]
    exact ⟨⟨fun _ => h, fun _ => hacc⟩, fun hmem => absurd h hmem⟩

/-- Witness for C7 at the selection `"sensor"`. -/
theorem error_submit_accepted_iff_enum_witness :
    handleErrorSubmit { initialState with selectedError := "sensor" } =
      ({ initialState with selectedError := "" }, [],
        [⟨"Error reported", "Error type: sensor", false⟩]) :=
  (error_submit_accepted_iff_enum
      { initialState with selectedError := "sensor" }
      (Or.inr (by decide))).1.mpr (by decide)

/-- C2 counterexample: a slider change to 5 whose dispatch fails (the
transport-failure toast is shown) nevertheless leaves the displayed x-axis
value at 5, not at the prior value 0: the view state is updated before the
dispatcher reports, and a failure does not restore it. -/
theorem slider_failure_changes_view_state :
    (handleSliderChange initialState Axis.x ⟨5, 0⟩
        (fun _ => false)).1.axisValues.x = ⟨5, 0⟩ ∧
    initialState.axisValues.x = ⟨0, 0⟩ ∧
    (handleSliderChange initialState Axis.x ⟨5, 0⟩ (fun _ => false)).2.2 =
      [⟨"Error sending data", "Failed to send x axis value", true⟩] := by
  decide

/-- C2 amended: the view state is updated optimistically when the command
is issued, before and independent of the dispatch outcome: the state a
handler produces is the same under any two outcome oracles, the slider
handler always writes the new axis value, and a failed dispatch therefore
leaves the new (not the prior) value displayed. -/
theorem view_state_update_outcome_independent (s : PanelState) (a : Axis)
    (v : Dec) (o oo : Request → Bool) :
    (handleSliderChange s a v o).1 = (handleSliderChange s a v oo).1 ∧
    (handleSliderChange s a v o).1.axisValues = s.axisValues.set a v ∧
    (handleManualSubmit s o).1 = (handleManualSubmit s oo).1 ∧
    (handleWeightSubmit s o).1 = (handleWeightSubmit s oo).1 := by
  refine ⟨rfl, rfl, ?_, ?_⟩
  · cases h : manualValidate 1000000 s.selectedAxis s.manualValue <;>
      simp [handleManualSubmit, h, sendIndividualAxisData]
  · cases h : weightValidate s.weight <;>
      simp [handleWeightSubmit, h, sendWeightData]

/-- C10: whenever a weight or manual-entry submission passes validation,
the form fields are cleared by the synchronous part of the handler,
independent of the dispatch outcome (the oracle is universally
quantified, so in particular when the network call later fails): the
weight field is reset to empty, and the manual value and axis selection
are reset to empty. -/
theorem fields_cleared_on_dispatch_initiation (s : PanelState)
    (o : Request → Bool) :
    (∀ v, weightValidate s.weight = .ok v →
      (handleWeightSubmit s o).1.weight = "") ∧
    (∀ v, manualValidate 1000000 s.selectedAxis s.manualValue = .ok v →
      (handleManualSubmit s o).1.manualValue = "" ∧
      (handleManualSubmit s o).1.selectedAxis = "") := by
  constructor
  · intro v hv
    simp [handleWeightSubmit, hv, sendWeightData]
  · intro v hv
    simp [handleManualSubmit, hv, sendIndividualAxisData]

/-- C6 counterexample: the accepted manual entry `"0.15"` on axis x (0 ≤
0.15 ≤ 1,000,000) is dispatched as a POST to `/X/0.15` with an empty body:
the value rendered in the path is a decimal literal with two fractional
digits, not one. -/
theorem axis_path_value_two_fraction_digits :
    parseFloatM "0.15" = some ⟨15, 2⟩ ∧
    (handleManualSubmit
        { initialState with selectedAxis := "x", manualValue := "0.15" }
        (fun _ => true)).2.1 =
      [⟨"POST", "/X/0.15", .empty⟩] ∧
    Dec.fracDigits ⟨15, 2⟩ = 2 := by
  decide

/-- C6 amended: every accepted per-axis command (slider change, or manual
entry passing validation with value `v`) builds exactly one request: a POST
to `/<A>/<v>` with an empty body, where `<A>` is the uppercased axis letter
and `<v>` is the shortest decimal rendering of the value, with no forced
fractional precision; any value that is an integer multiple of 0.1 renders
with at most one fractional digit. -/
theorem axis_request_shape (s : PanelState) (o : Request → Bool) (a : Axis)
    (w : Dec) (v : Dec)
    (hok : manualValidate 1000000 s.selectedAxis s.manualValue = .ok v) :
    (handleSliderChange s a w o).2.1 =
      [⟨"POST", "/" ++ jsToUpper a.str ++ "/" ++ w.render, .empty⟩] ∧
    (handleManualSubmit s o).2.1 =
      [⟨"POST", "/" ++ jsToUpper s.selectedAxis ++ "/" ++ v.render, .empty⟩] ∧
    ∀ (d : Dec) (k : ℤ), d.toRat = (k : ℚ) / 10 → d.fracDigits ≤ 1 := by
  refine ⟨rfl, ?_, fun d k h => Dec.fracDigits_le_one_of_tenth d k h⟩
  simp [handleManualSubmit, hok, sendIndividualAxisData]

/-- Witness for the amended C6: the accepted manual entry `"50"` on axis
`"x"` dispatches exactly `POST /X/50` with an empty body. -/
theorem axis_request_shape_witness :
    (handleManualSubmit
        { initialState with selectedAxis := "x", manualValue := "50" }
        (fun _ => true)).2.1 =
      [⟨"POST", "/X/50", .empty⟩] :=
  ((axis_request_shape
      { initialState with selectedAxis := "x", manualValue := "50" }
      (fun _ => true) Axis.x ⟨5, 0⟩ ⟨50, 0⟩ (by decide)).2.1).trans (by decide)

/-- C9 counterexample: on the manual entry axis `"x"`, value `"60"` — an
input within both ceilings, accepted by both variants (both clear the value
field) — the dispatch behaviour of the two variants differs: the current
variant issues one per-axis POST while the legacy variant issues no network
request at all (its sender is a mock). -/
theorem variants_dispatch_behaviour_differs :
    (handleManualSubmit
        { initialState with selectedAxis := "x", manualValue := "60" }
        (fun _ => true)).2.1 =
      [⟨"POST", "/X/60", .empty⟩] ∧
    (handleManualSubmit
        { initialState with selectedAxis := "x", manualValue := "60" }
        (fun _ => true)).1.manualValue = "" ∧
    (Legacy.handleManualSubmit
        { Legacy.initialState with selectedAxis := "x", manualValue := "60" }).2.1 =
      [] ∧
    (Legacy.handleManualSubmit
        { Legacy.initialState with selectedAxis := "x", manualValue := "60" }).1.manualValue =
      "" := by
  decide

/-- C9 amended: the two variants' manual-entry validation agrees on every
raw input whose parsed value is at most 100 (empty-field, not-a-number and
negative rejections agree as well), but their dispatch behaviour differs
even on inputs within both ceilings: the legacy variant never issues a
network request, while the current variant issues exactly one request per
accepted manual entry. -/
theorem variants_validation_agrees_dispatch_differs (sa mv : String)
    (hceil : ∀ v : Dec, parseFloatM mv = some v → v.toRat ≤ 100) :
    manualValidate 1000000 sa mv = manualValidate 100 sa mv ∧
    (∀ sB : Legacy.State, (Legacy.handleManualSubmit sB).2.1 = []) ∧
    (∀ (s : PanelState) (o : Request → Bool) (v : Dec),
      manualValidate 1000000 s.selectedAxis s.manualValue = .ok v →
      (handleManualSubmit s o).2.1.length = 1) := by
  refine ⟨?_, ?_, ?_⟩
  · by_cases hsa : sa = ""
    · simp [manualValidate, hsa]
    by_cases hmv : mv = ""
    · simp [manualValidate, hmv]
    cases hp : parseFloatM mv with
    | none => simp [manualValidate, hsa, hmv, hp]
    | some v =>
      have hv100 : v.toRat ≤ 100 := hceil v hp
      have hgt1M : ¬ v.gtInt 1000000 := by
        rw [Dec.gtInt_iff]; push_neg
        have : ((1000000 : ℤ) : ℚ) = 1000000 := by norm_num
        rw [this]; linarith
      have hgt100 : ¬ v.gtInt 100 := by
        rw [Dec.gtInt_iff]; push_neg
        exact_mod_cast hv100
      simp [manualValidate, hsa, hmv, hp, hgt1M, hgt100]
  · intro sB
    cases h : manualValidate 100 sB.selectedAxis sB.manualValue <;>
      simp [Legacy.handleManualSubmit, h, Legacy.sendAxisData]
  · intro s o v h
    simp [handleManualSubmit, h, sendIndividualAxisData]

/-- Witness for the amended C9 at axis `"x"`, raw value `"7"` (within both
ceilings): the two validators return the same result. -/
theorem variants_validation_agrees_dispatch_differs_witness :
    manualValidate 1000000 "x" "7" = manualValidate 100 "x" "7" :=
  (variants_validation_agrees_dispatch_differs "x" "7" (fun v hv => by
    have h7 : parseFloatM "7" = some ⟨7, 0⟩ := by decide
    rw [h7] at hv
    rw [← Option.some.inj hv]
    norm_num [Dec.toRat])).1

/-- Witness for C10: with weight `"5"`, axis `"x"`, value `"50"` and a
dispatch that fails, the fields are still cleared. -/
theorem fields_cleared_on_dispatch_initiation_witness :
    (handleWeightSubmit
        { initialState with
          selectedAxis := "x"
          manualValue := "50"
          weight := "5" } (fun _ => false)).1.weight = "" ∧
    (handleManualSubmit
        { initialState with
          selectedAxis := "x"
          manualValue := "50"
          weight := "5" } (fun _ => false)).1.manualValue = "" :=
  ⟨(fields_cleared_on_dispatch_initiation
      { initialState with
        selectedAxis := "x"
        manualValue := "50"
        weight := "5" } (fun _ => false)).1 ⟨5, 0⟩ (by decide),
    ((fields_cleared_on_dispatch_initiation
      { initialState with
        selectedAxis := "x"
        manualValue := "50"
        weight := "5" } (fun _ => false)).2 ⟨50, 0⟩ (by decide)).1⟩

end SliderSync
